import Mathlib

/-! Verification development for the build-orchestration code of the
repository: shallow embeddings of `kbuild.py`, `buildmanager.py`,
`bldsrv.py` (gce-bldsrv) and `bldsrvmanager.py` (gce-ltm), together with
theorems about the control flow and data transformations of that code. -/

/-! ## Kbuild (kbuild.py) -/

/-- Fixed artifact path checked by the monitor loop and deleted by the
finish step (`kbuild.py`, `self.image_file_path`). -/
def image_file_path : String := "/root/builds/linux/arch/x86/boot/bzImage"

/-- External compile command invoked by `Kbuild.__start`
(`/usr/local/lib/buildkernel.sh`). -/
def buildkernel_cmd : String := "/usr/local/lib/buildkernel.sh"

/-- Number of one-second sleeps performed by each iteration of the monitor
loop before its single existence check (`for _ in range(30): sleep(1.0)`). -/
def monitor_sleeps_per_check : Nat := 30

/-- Fuel-indexed embedding of `Kbuild.__monitor`.  The loop body sleeps
`monitor_sleeps_per_check` one-second intervals, then checks
`os.path.isfile(image_file_path)` once; it breaks out of the loop exactly
when a check observes the file, and the function then returns `True`.
`fileAt k` gives the result of the k-th existence check.  The result
`none` means the loop has not returned within `fuel` iterations; the
source loop itself (`while True: ...`) has no timeout branch, so `none`
is purely an artifact of the fuel indexing. -/
def kbuild_monitor : Nat → (Nat → Bool) → Option Bool
  | 0, _ => none
  | fuel + 1, fileAt =>
      if fileAt 0 then some true
      else kbuild_monitor fuel (fun k => fileAt (k + 1))

/-- Filesystem and pipe state touched by `Kbuild.__start`.  `buildlog` is
the contents of the dedicated `.buildlog` file (`none` when absent);
`stdoutPipe` is the data written to the stdout pipe of the spawned
compile subprocess. -/
structure KStartState where
  buildlog : Option String
  stdoutPipe : String
deriving DecidableEq

/-- Embedding of `Kbuild.__start`: it opens the buildlog file with mode
`w` (creating or truncating it to empty), spawns
`[buildkernel_cmd, repository, commit]` with `stdout=subprocess.PIPE` and
`stderr=subprocess.STDOUT` so the combined stdout+stderr of the compile
process goes to the pipe (which is never read), blocks in
`process.wait()` until the process exits, closes the file, and returns
whether the exit code was zero.  `output` is the combined stdout+stderr
the compile process writes and `returncode` its exit code. -/
def kbuild_start (output : String) (returncode : Int) (s : KStartState) :
    KStartState × Bool :=
  let s1 : KStartState := ⟨some "", s.stdoutPipe⟩
  let s2 : KStartState := ⟨s1.buildlog, output⟩
  (s2, returncode == 0)

/-- Events of the child process running `Kbuild.__run`. -/
inductive KEv where
  | setupLogging
  | startPhase
  | logStartFailure
  | monitorPhase
  | finishPhase
  | removeArtifact
  | exitProc
deriving DecidableEq

/-- Trace of `Kbuild.__run`: setup logging, run `__start`; if `__start`
returned `False`, log the failure twice and fall through to `exit()`
without calling `__monitor` or `__finish`; otherwise run `__monitor`
(assumed here to return, which it does exactly when the artifact file
eventually appears, see `kbuild_monitor`) and then `__finish`, which
removes the artifact file when it is present (`artifactPresent`). -/
def kbuild_run_trace (startOk artifactPresent : Bool) : List KEv :=
  [KEv.setupLogging, KEv.startPhase] ++
    (if startOk then
        [KEv.monitorPhase, KEv.finishPhase] ++
          (if artifactPresent then [KEv.removeArtifact] else [])
      else [KEv.logStartFailure]) ++
    [KEv.exitProc]

/-! ## BLDSRV (bldsrv.py) -/

/-- Class attributes actually defined on `class BLDSRV` in `bldsrv.py`
(three string constants and one static method). -/
def bldsrv_class_attrs : List String :=
  ["server_log_file", "build_log_dir", "bldsrv_username", "create_log_dir"]

/-- Whether `BLDSRV.<a>` resolves to a class attribute. -/
def bldsrv_has_attr (a : String) : Bool := bldsrv_class_attrs.contains a

/-- Python exceptions that the embedded code can raise. -/
inductive PyErr where
  | attributeError (attr : String)
  | typeError (msg : String)
  | indexError (msg : String)
deriving DecidableEq

/-- Embedding of the class attribute access `BLDSRV.<a>`: an
`AttributeError` is raised when the class defines no such attribute. -/
def bldsrv_getattr (a : String) : Except PyErr Unit :=
  if bldsrv_has_attr a then Except.ok () else Except.error (PyErr.attributeError a)

/-! ## BuildManager (buildmanager.py) -/

/-- Number of parameters of `Kbuild.__init__` besides `self`
(`repository, commit, build_id, log_dir_path`). -/
def kbuild_init_param_count : Nat := 4

/-- Number of positional arguments passed to `Kbuild(...)` at the end of
`BuildManager.__init__`
(`self.repository, self.commit, self.build_dir, self.id, self.log_dir_path`). -/
def kbuild_init_call_argc : Nat := 5

/-- Embedding of a Python call passing `argc` positional arguments to a
function of `nparams` parameters: a `TypeError` is raised on a mismatch. -/
def py_call_arity (nparams argc : Nat) : Except PyErr Unit :=
  if nparams = argc then Except.ok ()
  else Except.error (PyErr.typeError "arity mismatch")

/-- Embedding of the control flow of `BuildManager.__init__`.  `opts` is
the optional options dictionary (`none` embeds `opts=None`).  Lines 59-72
(build id, paths, log dir, bucket configuration) have no failure mode
modelled here.  Lines 74-77 assign `self.commit` / `self.repository` only
when the corresponding key is present; line 78 then reads
`self.repository` (an `AttributeError` when it was never assigned), lines
79-81 read `BLDSRV.repo_cache_path`, `BLDSRV.image_path` and
`BLDSRV.image_name`, and line 85 evaluates `self.commit` and calls
`Kbuild` with five positional arguments. -/
def buildmanager_init (opts : Option (List (String × String))) :
    Except PyErr Unit := do
  let commitOpt := opts.bind fun o => o.lookup "commit_id"
  let repositoryOpt := opts.bind fun o => o.lookup "git_repo"
  match repositoryOpt with
  | none => Except.error (PyErr.attributeError "repository")
  | some _ => do
      let _ ← bldsrv_getattr "repo_cache_path"
      let _ ← bldsrv_getattr "image_path"
      let _ ← bldsrv_getattr "image_name"
      match commitOpt with
      | none => Except.error (PyErr.attributeError "commit")
      | some _ => py_call_arity kbuild_init_param_count kbuild_init_call_argc

/-- State touched by `BuildManager.__upload_build` and
`BuildManager.__cleanup`.  `kernelBuild` is the contents of the artifact
file at the local path `self.kernel_build` (`none` when absent);
`bucket` records the uploaded blobs (name and contents, newest first);
`netCalls` counts calls made to the storage service; `logs` records the
log messages emitted. -/
structure BMState where
  kernelBuild : Option String
  bucket : List (String × String)
  netCalls : Nat
  logs : List String
deriving DecidableEq

/-- Embedding of `BuildManager.__upload_build`: when
`os.path.isfile(self.kernel_build)` holds, it creates a storage client,
looks up the configured bucket (one call), opens the file and uploads its
contents under the blob name `self.kernel_build_filename` (a second
call); otherwise it only logs that no image was found and touches
nothing else. -/
def upload_build (blobName : String) (s : BMState) : BMState :=
  match s.kernelBuild with
  | some content =>
      ⟨some content, (blobName, content) :: s.bucket, s.netCalls + 2, s.logs⟩
  | none =>
      ⟨none, s.bucket, s.netCalls,
        s.logs ++ ["Could not find bzImage to upload."]⟩

/-- Embedding of `BuildManager.__cleanup`: it removes the artifact file
at `self.kernel_build` when present. -/
def bm_cleanup (s : BMState) : BMState :=
  match s.kernelBuild with
  | some _ => ⟨none, s.bucket, s.netCalls, s.logs⟩
  | none => s

/-- Events of the worker process running `BuildManager.__run`, with the
events of the child `Kbuild` process embedded via `KEv`. -/
inductive BEv where
  | setupLogging
  | spawnChild
  | kbuildEv (e : KEv)
  | joinDone
  | uploadPhase
  | uploadBlob
  | logUploadSkip
  | cleanupPhase
  | removeKernelBuild
  | exitProc
deriving DecidableEq

/-- Trace of `BuildManager.__run`: setup logging, `__start` (which spawns
the `Kbuild` child process), `__wait_for_build` (which joins on it), then
`__finish` = `__upload_build` followed by `__cleanup`, then `exit()`.
The child runs concurrently between the spawn and the join, but the
parent performs no observable step in that window beyond the join call
itself, and every child event precedes the return of the join, so the
trace totally orders the child events before `joinDone`.
`startOk` and `artifactPresent` parametrise the child trace;
`kernelBuildAtUpload` / `kernelBuildAtCleanup` give the result of the
`os.path.isfile(self.kernel_build)` checks in `__upload_build` and
`__cleanup`. -/
def buildmanager_run_trace
    (startOk artifactPresent kernelBuildAtUpload kernelBuildAtCleanup : Bool) :
    List BEv :=
  [BEv.setupLogging, BEv.spawnChild] ++
    (kbuild_run_trace startOk artifactPresent).map BEv.kbuildEv ++
    [BEv.joinDone] ++
    ([BEv.uploadPhase] ++
      (if kernelBuildAtUpload then [BEv.uploadBlob] else [BEv.logUploadSkip])) ++
    ([BEv.cleanupPhase] ++
      (if kernelBuildAtCleanup then [BEv.removeKernelBuild] else [])) ++
    [BEv.exitProc]

/-! ## BldsrvManager (bldsrvmanager.py) -/

/-- Helper for `pySplit`: when `sep` is an initial segment of `l`,
return the remainder of `l` after it; otherwise `none`. -/
def sepMatch : List Char → List Char → Option (List Char)
  | [], l => some l
  | _ :: _, [] => none
  | s :: ss, c :: cs => if c = s then sepMatch ss cs else none

/-- Fuel-indexed worker for `pySplit`: scans `l` left to right with the
current token accumulated in reverse in `cur`, emitting a token at each
leftmost non-overlapping occurrence of `sep`.  Each step consumes at
least one character of `l` when `sep` is non-empty, so fuel equal to the
length of `l` always suffices. -/
def pySplitGo (sep : List Char) : Nat → List Char → List Char → List (List Char)
  | _, cur, [] => [cur.reverse]
  | 0, cur, l => [cur.reverse ++ l]
  | fuel + 1, cur, c :: cs =>
      match sepMatch sep (c :: cs) with
      | some rest => cur.reverse :: pySplitGo sep fuel [] rest
      | none => pySplitGo sep fuel (c :: cur) cs

/-- Embedding of the Python method `s.split(sep)` for a non-empty
separator: the list of tokens of `s` between consecutive leftmost
non-overlapping occurrences of `sep`, with empty tokens kept at the ends
and between adjacent occurrences. -/
def pySplit (s sep : String) : List String :=
  (pySplitGo sep.toList s.toList.length [] s.toList).map String.mk

/-- Embedding of the return expression of
`BldsrvManager.__send_to_bldsrv`:
`r.content.split('"status":')[1].split('}')[0]`.
The subscript `[1]` is a list lookup (`none` embeds the `IndexError`
raised when the body does not contain the marker), and the subscript
`[0]` of the second split always exists because a split result is a
non-empty list. -/
def extract_status (body : String) : Option String :=
  ((pySplit body "\"status\":").get? 1).map fun rest =>
    (pySplit rest "\x7d").headD ""

/-- Embedding of Python evaluation of `content['status']` when `content`
is a `str`: indexing a string with a string key raises a `TypeError`. -/
def py_str_getitem_str (_s _key : String) : Except PyErr String :=
  Except.error (PyErr.typeError "string indices must be integers")

/-- Embedding of the tail of `BldsrvManager.__send_to_bldsrv` after the
second POST, for an HTTP response whose body `cmdRespBody` is a string:
line 89 evaluates `r.content['status']` inside a logging call, and only
then would line 90 evaluate the extraction expression and return it. -/
def send_to_bldsrv (cmdRespBody : String) : Except PyErr String := do
  let _ ← py_str_getitem_str cmdRespBody "status"
  match extract_status cmdRespBody with
  | some v => Except.ok v
  | none => Except.error (PyErr.indexError "list index out of range")

/-- Events of the worker process running `BldsrvManager.__run`. -/
inductive LEv where
  | callLaunchBldsrv
  | logLaunchFailure
  | sleepOneSec
  | getBldsrvIpCall
  | post (url : String) (payload : String) (jsonContentType : Bool)
  | logSendFailure
  | raiseTypeError
  | exitProc
deriving DecidableEq

/-- Trace of `BldsrvManager.__run`: call the provisioning command
`gce-xfstests launch-bldsrv`; if its exit status is non-zero, log an
error and `exit()`; otherwise sleep 120 one-second intervals with no
readiness check, query the provisioning API for the host address, and in
one `requests.Session` POST the password payload to
`https:// + ip + //login` and the serialized command to
`https:// + ip + //gce-xfstests`, both with a
`Content-Type: application/json` header; the logging call after the
second POST then raises a `TypeError` (see `send_to_bldsrv`), so the
comparison of the result with the string `false` and the
`Failed to send cmd to build server` log are never reached. -/
def bldsrv_run_trace (launchRc : Int) (ip pwd cmdJson : String) : List LEv :=
  [LEv.callLaunchBldsrv] ++
    (if launchRc == 0 then
        List.replicate 120 LEv.sleepOneSec ++
          [LEv.getBldsrvIpCall,
           LEv.post ("https://" ++ ip ++ "//login") pwd true,
           LEv.post ("https://" ++ ip ++ "//gce-xfstests") cmdJson true,
           LEv.raiseTypeError]
      else [LEv.logLaunchFailure, LEv.exitProc])

/-! ## Build identifiers (buildmanager.py, get_datetime_build_id) -/

/-- Big-endian list of the `w` decimal digits of `n`.  For `n < 10 ^ w`
this is exactly the zero-padded fixed-width decimal digit sequence that
the Python conversion `%.wd` (pad with zeros to a minimum width of `w`)
prints for `n`; every field of a wall-clock datetime is within that
range for its width in the format string of `get_datetime_build_id`. -/
def digitsBE : Nat → Nat → List Nat
  | 0, _ => []
  | w + 1, n => n / 10 ^ w :: digitsBE w (n % 10 ^ w)

/-- Characters printed by the Python conversion `%.wd` applied to a
natural number `n < 10 ^ w`. -/
def fmtPad (w n : Nat) : List Char := (digitsBE w n).map Nat.digitChar

/-- Wall-clock timestamp at second granularity, as read off
`datetime.now()` by `get_datetime_build_id` (fields beyond seconds are
not used by the format string). -/
structure PyDateTime where
  year : Nat
  month : Nat
  day : Nat
  hour : Nat
  minute : Nat
  second : Nat
deriving DecidableEq

/-- Ranges of the fields of a wall-clock `datetime.now()` value with a
four-digit year. -/
def PyDateTime.Valid (t : PyDateTime) : Prop :=
  t.year ≤ 9999 ∧ 1 ≤ t.month ∧ t.month ≤ 12 ∧ 1 ≤ t.day ∧ t.day ≤ 31 ∧
    t.hour ≤ 23 ∧ t.minute ≤ 59 ∧ t.second ≤ 59

instance (t : PyDateTime) : Decidable t.Valid := by
  unfold PyDateTime.Valid; infer_instance

/-- Timestamp key of a datetime: the number `YYYYMMDDHHMMSS`.  For valid
datetimes, `key t1 < key t2` holds exactly when `t1` is an earlier
wall-clock second than `t2` (the fields are compared in
most-significant-first order, which for calendar fields is chronological
order). -/
def PyDateTime.key (t : PyDateTime) : Nat :=
  ((((t.year * 100 + t.month) * 100 + t.day) * 100 + t.hour) * 100 +
      t.minute) * 100 + t.second

/-- Embedding of `get_datetime_build_id`: the string produced by the
format `'%.4d%.2d%.2d%.2d%.2d%.2d'` applied to the year, month, day,
hour, minute and second of the current wall-clock time. -/
def get_datetime_build_id (t : PyDateTime) : String :=
  String.mk (fmtPad 4 t.year ++ fmtPad 2 t.month ++ fmtPad 2 t.day ++
    fmtPad 2 t.hour ++ fmtPad 2 t.minute ++ fmtPad 2 t.second)

/-- Numeric reading of a decimal digit string (the number it denotes in
base 10), used to state that later identifiers are numerically greater. -/
def strToNat (s : String) : Nat :=
  s.toList.foldl (fun acc c => acc * 10 + (c.toNat - 48)) 0

/-! ## Helper lemmas about fixed-width decimal digit strings -/

theorem digitsBE_length (w : Nat) : ∀ n, (digitsBE w n).length = w := by
  induction w with
  | zero => intro n; rfl
  | succ w ih => intro n; simp [digitsBE, ih]

theorem digitsBE_lt_ten (w : Nat) :
    ∀ n, n < 10 ^ w → ∀ d ∈ digitsBE w n, d < 10 := by
  induction w with
  | zero => intro n hn d hd; simp [digitsBE] at hd
  | succ w ih =>
      intro n hn d hd
      simp only [digitsBE, List.mem_cons] at hd
      rcases hd with rfl | hd
      · exact Nat.div_lt_of_lt_mul (by rw [← pow_succ]; exact hn)
      · exact ih _ (Nat.mod_lt _ (pow_pos (by norm_num) w)) d hd

theorem digitsBE_append (a b x z : Nat) (hx : x < 10 ^ a) (hz : z < 10 ^ b) :
    digitsBE a x ++ digitsBE b z = digitsBE (a + b) (x * 10 ^ b + z) := by
  induction a generalizing x with
  | zero =>
      have hx0 : x = 0 := by omega
      subst hx0
      simp [digitsBE]
  | succ a ih =>
      have hxm : x % 10 ^ a < 10 ^ a := Nat.mod_lt _ (pow_pos (by norm_num) a)
      have hR : x % 10 ^ a * 10 ^ b + z < 10 ^ (a + b) := by
        calc x % 10 ^ a * 10 ^ b + z < x % 10 ^ a * 10 ^ b + 10 ^ b := by omega
          _ = (x % 10 ^ a + 1) * 10 ^ b := by ring
          _ ≤ 10 ^ a * 10 ^ b := Nat.mul_le_mul_right _ (by omega)
          _ = 10 ^ (a + b) := (pow_add 10 a b).symm
      have hE : x * 10 ^ b + z =
          (x % 10 ^ a * 10 ^ b + z) + x / 10 ^ a * 10 ^ (a + b) := by
        conv_lhs => rw [← Nat.div_add_mod x (10 ^ a)]
        rw [pow_add]
        ring
      have hdiv : (x * 10 ^ b + z) / 10 ^ (a + b) = x / 10 ^ a := by
        rw [hE, Nat.add_mul_div_right _ _ (pow_pos (by norm_num) (a + b)),
          Nat.div_eq_of_lt hR, Nat.zero_add]
      have hmod : (x * 10 ^ b + z) % 10 ^ (a + b) = x % 10 ^ a * 10 ^ b + z := by
        rw [hE, Nat.add_mul_mod_self_right, Nat.mod_eq_of_lt hR]
      show x / 10 ^ a :: (digitsBE a (x % 10 ^ a) ++ digitsBE b z) = _
      rw [ih _ hxm]
      have hab : a + 1 + b = (a + b) + 1 := by omega
      rw [hab]
      show _ = (x * 10 ^ b + z) / 10 ^ (a + b) ::
        digitsBE (a + b) ((x * 10 ^ b + z) % 10 ^ (a + b))
      rw [hdiv, hmod]

theorem digitsBE_lex (w : Nat) :
    ∀ m n, m < n → n < 10 ^ w →
      List.Lex (· < ·) (digitsBE w m) (digitsBE w n) := by
  induction w with
  | zero => intro m n hmn hn; exact absurd hmn (by omega)
  | succ w ih =>
      intro m n hmn hn
      show List.Lex (· < ·)
        (m / 10 ^ w :: digitsBE w (m % 10 ^ w))
        (n / 10 ^ w :: digitsBE w (n % 10 ^ w))
      rcases Nat.lt_trichotomy (m / 10 ^ w) (n / 10 ^ w) with h | h | h
      · exact List.Lex.rel h
      · have h1 := Nat.div_add_mod m (10 ^ w)
        have h2 := Nat.div_add_mod n (10 ^ w)
        rw [h] at h1
        have hmod : m % 10 ^ w < n % 10 ^ w := by
          generalize 10 ^ w * (n / 10 ^ w) = t at h1 h2
          omega
        rw [h]
        exact List.Lex.cons
          (ih _ _ hmod (Nat.mod_lt _ (pow_pos (by norm_num) w)))
      · have hle : m / 10 ^ w ≤ n / 10 ^ w :=
          Nat.div_le_div_right (Nat.le_of_lt hmn)
        exact absurd h (Nat.not_lt.mpr hle)

theorem digitChar_strict_mono :
    ∀ a < 10, ∀ b < 10, a < b → Nat.digitChar a < Nat.digitChar b := by decide

theorem digitChar_sub_48 : ∀ d < 10, (Nat.digitChar d).toNat - 48 = d := by decide

theorem lex_map_digitChar {l₁ l₂ : List Nat} (h : List.Lex (· < ·) l₁ l₂) :
    (∀ d ∈ l₁, d < 10) → (∀ d ∈ l₂, d < 10) →
    List.Lex (· < ·) (l₁.map Nat.digitChar) (l₂.map Nat.digitChar) := by
  induction h with
  | nil =>
      intro _ _
      simp only [List.map_nil, List.map_cons]
      exact List.Lex.nil
  | @rel a l₁' b l₂' hab =>
      intro h₁ h₂
      simp only [List.map_cons]
      exact List.Lex.rel
        (digitChar_strict_mono a (h₁ a (by simp)) b (h₂ b (by simp)) hab)
  | @cons a l₁' l₂' h ih =>
      intro h₁ h₂
      simp only [List.map_cons]
      exact List.Lex.cons
        (ih (fun d hd => h₁ d (by simp [hd])) (fun d hd => h₂ d (by simp [hd])))

theorem foldl_digitsBE (w : Nat) :
    ∀ n a, n < 10 ^ w →
      ((digitsBE w n).map Nat.digitChar).foldl
          (fun acc c => acc * 10 + (c.toNat - 48)) a = a * 10 ^ w + n := by
  induction w with
  | zero =>
      intro n a hn
      simp only [digitsBE, List.map_nil, List.foldl_nil]
      omega
  | succ w ih =>
      intro n a hn
      have hq : n / 10 ^ w < 10 :=
        Nat.div_lt_of_lt_mul (by rw [← pow_succ]; exact hn)
      simp only [digitsBE, List.map_cons, List.foldl_cons]
      rw [digitChar_sub_48 _ hq,
        ih (n % 10 ^ w) _ (Nat.mod_lt _ (pow_pos (by norm_num) w))]
      have hdm := Nat.div_add_mod n (10 ^ w)
      conv_rhs => rw [← hdm]
      rw [pow_succ]
      ring

theorem key_lt_pow14 (t : PyDateTime) (h : t.Valid) : t.key < 10 ^ 14 := by
  obtain ⟨hy, hm1, hm2, hd1, hd2, hh, hmin, hs⟩ := h
  have h14 : (10 : Nat) ^ 14 = 100000000000000 := by norm_num
  rw [h14]
  unfold PyDateTime.key
  omega

theorem build_id_digits (t : PyDateTime) (h : t.Valid) :
    get_datetime_build_id t =
      String.mk ((digitsBE 14 t.key).map Nat.digitChar) := by
  obtain ⟨hy, hm1, hm2, hd1, hd2, hh, hmin, hs⟩ := h
  have e1 : digitsBE 4 t.year ++ digitsBE 2 t.month =
      digitsBE 6 (t.year * 100 + t.month) := by
    have e := digitsBE_append 4 2 t.year t.month (by norm_num; omega)
      (by norm_num; omega)
    norm_num at e
    exact e
  have e2 : digitsBE 6 (t.year * 100 + t.month) ++ digitsBE 2 t.day =
      digitsBE 8 ((t.year * 100 + t.month) * 100 + t.day) := by
    have e := digitsBE_append 6 2 (t.year * 100 + t.month) t.day
      (by norm_num; omega) (by norm_num; omega)
    norm_num at e
    exact e
  have e3 : digitsBE 8 ((t.year * 100 + t.month) * 100 + t.day) ++
        digitsBE 2 t.hour =
      digitsBE 10 (((t.year * 100 + t.month) * 100 + t.day) * 100 + t.hour) := by
    have e := digitsBE_append 8 2 ((t.year * 100 + t.month) * 100 + t.day)
      t.hour (by norm_num; omega) (by norm_num; omega)
    norm_num at e
    exact e
  have e4 : digitsBE 10
        (((t.year * 100 + t.month) * 100 + t.day) * 100 + t.hour) ++
        digitsBE 2 t.minute =
      digitsBE 12 ((((t.year * 100 + t.month) * 100 + t.day) * 100 + t.hour) *
        100 + t.minute) := by
    have e := digitsBE_append 10 2
      (((t.year * 100 + t.month) * 100 + t.day) * 100 + t.hour) t.minute
      (by norm_num; omega) (by norm_num; omega)
    norm_num at e
    exact e
  have e5 : digitsBE 12
        ((((t.year * 100 + t.month) * 100 + t.day) * 100 + t.hour) * 100 +
          t.minute) ++ digitsBE 2 t.second =
      digitsBE 14 (((((t.year * 100 + t.month) * 100 + t.day) * 100 + t.hour) *
        100 + t.minute) * 100 + t.second) := by
    have e := digitsBE_append 12 2
      ((((t.year * 100 + t.month) * 100 + t.day) * 100 + t.hour) * 100 +
        t.minute) t.second (by norm_num; omega) (by norm_num; omega)
    norm_num at e
    exact e
  unfold get_datetime_build_id fmtPad
  congr 1
  simp only [← List.map_append]
  congr 1
  rw [e1, e2, e3, e4, e5]
  rfl

theorem build_id_length (t : PyDateTime) :
    (get_datetime_build_id t).length = 14 := by
  unfold get_datetime_build_id fmtPad
  show (List.length _) = 14
  simp [digitsBE_length]

theorem strToNat_build_id (t : PyDateTime) (h : t.Valid) :
    strToNat (get_datetime_build_id t) = t.key := by
  rw [build_id_digits t h]
  unfold strToNat
  show ((digitsBE 14 t.key).map Nat.digitChar).foldl _ 0 = t.key
  rw [foldl_digitsBE 14 t.key 0 (key_lt_pow14 t h)]
  simp

theorem build_id_lt (t₁ t₂ : PyDateTime) (h₁ : t₁.Valid) (h₂ : t₂.Valid)
    (hk : t₁.key < t₂.key) :
    get_datetime_build_id t₁ < get_datetime_build_id t₂ := by
  rw [build_id_digits t₁ h₁, build_id_digits t₂ h₂,
    String.lt_iff_toList_lt]
  show List.Lex (· < ·) ((digitsBE 14 t₁.key).map Nat.digitChar)
    ((digitsBE 14 t₂.key).map Nat.digitChar)
  exact lex_map_digitChar (digitsBE_lex 14 t₁.key t₂.key hk (key_lt_pow14 t₂ h₂))
    (digitsBE_lt_ten 14 t₁.key (key_lt_pow14 t₁ h₁))
    (digitsBE_lt_ten 14 t₂.key (key_lt_pow14 t₂ h₂))

theorem kbuild_monitor_eq_some (f : Nat) :
    ∀ (p : Nat → Bool) (b : Bool), kbuild_monitor f p = some b → b = true := by
  induction f with
  | zero => intro p b h; simp [kbuild_monitor] at h
  | succ f ih =>
      intro p b h
      by_cases h0 : p 0 = true
      · simp [kbuild_monitor, h0] at h
        exact h
      · simp only [kbuild_monitor, h0, if_false, Bool.false_eq_true] at h
        exact ih _ b h

theorem kbuild_monitor_isSome_of_check :
    ∀ (k : Nat) (p : Nat → Bool), p k = true →
      (kbuild_monitor (k + 1) p).isSome := by
  intro k
  induction k with
  | zero => intro p hp; simp [kbuild_monitor, hp]
  | succ k ih =>
      intro p hp
      by_cases h0 : p 0 = true
      · simp [kbuild_monitor, h0]
      · simp only [kbuild_monitor, h0, if_false, Bool.false_eq_true]
        exact ih (fun j => p (j + 1)) hp

theorem kbuild_monitor_exists_check (f : Nat) :
    ∀ (p : Nat → Bool), (kbuild_monitor f p).isSome → ∃ k, p k = true := by
  induction f with
  | zero => intro p h; simp [kbuild_monitor] at h
  | succ f ih =>
      intro p h
      by_cases h0 : p 0 = true
      · exact ⟨0, h0⟩
      · simp only [kbuild_monitor, h0, if_false, Bool.false_eq_true] at h
        obtain ⟨k, hk⟩ := ih _ h
        exact ⟨k + 1, hk⟩

/-! ## Claim theorems -/

/-- C1 (counterexample): the claim says a failed compile start does not
short-circuit the job before the monitor phase is invoked; but in the
run of `Kbuild.__run` in which `__start` returns `False` (here with the
artifact present), the trace contains no monitor event at all. -/
theorem C1_counterexample :
    KEv.monitorPhase ∉ kbuild_run_trace false true := by decide

/-- C1 (amended): when the external compile step exits non-zero (the
start operation returns false), `Kbuild.__run` logs the failure and
proceeds directly to process exit, skipping both the monitor and the
finish phases; the monitor phase is entered if and only if the start
operation returned true. -/
theorem C1_amended (p : Bool) :
    kbuild_run_trace false p =
      [KEv.setupLogging, KEv.startPhase, KEv.logStartFailure, KEv.exitProc] ∧
    ∀ s : Bool, KEv.monitorPhase ∈ kbuild_run_trace s p ↔ s = true := by
  cases p <;> exact ⟨rfl, by decide⟩

/-- C2: the polling loop of `Kbuild.__monitor` has no upper bound: every
value it returns is `True` (there is no timeout branch producing
`False`), and it returns at all (for some amount of fuel) exactly when
some existence check observes the artifact file. -/
theorem C2_monitor (p : Nat → Bool) :
    (∀ f b, kbuild_monitor f p = some b → b = true) ∧
    ((∃ f, (kbuild_monitor f p).isSome) ↔ ∃ k, p k = true) := by
  refine ⟨fun f b h => kbuild_monitor_eq_some f p b h, ?_, ?_⟩
  · rintro ⟨f, hf⟩
    exact kbuild_monitor_exists_check f p hf
  · rintro ⟨k, hk⟩
    exact ⟨k + 1, kbuild_monitor_isSome_of_check k p hk⟩

/-- C2 (witness): with the artifact appearing at the third check, the
monitor loop terminates, hence some check observes the file. -/
theorem C2_monitor_witness : ∃ k, (fun k : Nat => k == 2) k = true :=
  (C2_monitor (fun k => k == 2)).2.mp ⟨3, by decide⟩

/-- C3: in every orchestrator run trace, the join on the job worker
process precedes the upload attempt, which precedes the local cleanup;
and when the job runs its finish step with the artifact present (start
succeeded and the artifact file exists), the artifact deletion inside
the job precedes the orchestrator upload attempt. -/
theorem C3_ordering (s a u c : Bool) :
    ((buildmanager_run_trace s a u c).indexOf BEv.joinDone <
        (buildmanager_run_trace s a u c).indexOf BEv.uploadPhase) ∧
    ((buildmanager_run_trace s a u c).indexOf BEv.uploadPhase <
        (buildmanager_run_trace s a u c).indexOf BEv.cleanupPhase) ∧
    (s = true → a = true →
      (buildmanager_run_trace s a u c).indexOf (BEv.kbuildEv KEv.removeArtifact) <
        (buildmanager_run_trace s a u c).indexOf BEv.uploadPhase) := by
  revert s a u c
  decide

/-- C3 (witness): in the run with a successful start, the artifact
present at job finish, and present at both orchestrator checks, the
deletion inside the job precedes the upload attempt. -/
theorem C3_ordering_witness :
    (buildmanager_run_trace true true true true).indexOf
        (BEv.kbuildEv KEv.removeArtifact) <
      (buildmanager_run_trace true true true true).indexOf BEv.uploadPhase :=
  (C3_ordering true true true true).2.2 rfl rfl

/-- C4 (counterexample): on a body containing `,"status":"false"}` the
extractor returns the token with its surrounding quote characters, not
the bare string `false` that the claim requires. -/
theorem C4_counterexample :
    extract_status "\x7b\"ok\":true,\"status\":\"false\"\x7d" =
        some "\"false\"" ∧
    extract_status "\x7b\"ok\":true,\"status\":\"false\"\x7d" ≠
        some "false" := by decide

/-- C4 (amended): the status-text extractor returns the raw text between
the literal marker `"status":` and the next closing brace, which keeps
the surrounding quote characters of the status value: on a body
containing `,"status":"false"}` it returns the 7-character string
`"false"`, and on a body containing `"status":"ok"}` it returns the
4-character string `"ok"`. -/
theorem C4_amended :
    extract_status "\x7b\"ok\":true,\"status\":\"false\"\x7d" =
        some "\"false\"" ∧
    extract_status "\x7b\"status\":\"ok\"\x7d" = some "\"ok\"" := by decide

/-- C5: evaluating `Kbuild.__start` on a compile run whose combined
stdout+stderr is `make output` and whose exit code is 0 leaves the
dedicated build log file truncated to the empty string — the output went
to the unread stdout pipe instead of the log file — while the function
still blocks until exit and returns true exactly for the zero exit code.
This contradicts the claim (and the surrounding intent of the code,
which opens the log file for writing just before spawning the compile
process and merges stderr into stdout) that the combined output is
captured into the build log file. -/
theorem C5_start_no_capture :
    kbuild_start "make output" 0 ⟨none, ""⟩ = (⟨some "", "make output"⟩, true) ∧
    (⟨some "", "make output"⟩ : KStartState).buildlog ≠ some "make output" := by
  decide

/-- C6: the upload step takes exactly one of two branches on artifact
presence: when the artifact file is absent it only appends the skip log
message, leaving the bucket and the network-call count unchanged; when
the artifact is present it uploads its contents under the configured
blob name (two storage calls: bucket lookup and blob upload) and the
following cleanup removes the local file. -/
theorem C6_upload (blobName : String) (s : BMState) :
    (s.kernelBuild = none →
        upload_build blobName s =
          ⟨none, s.bucket, s.netCalls,
            s.logs ++ ["Could not find bzImage to upload."]⟩) ∧
    (∀ content, s.kernelBuild = some content →
        upload_build blobName s =
          ⟨some content, (blobName, content) :: s.bucket, s.netCalls + 2,
            s.logs⟩ ∧
        (bm_cleanup (upload_build blobName s)).kernelBuild = none) := by
  constructor
  · intro h
    simp [upload_build, h]
  · intro content h
    simp [upload_build, bm_cleanup, h]

/-- C6 (witness): concrete runs of both branches: an absent artifact
only logs the skip, and a present artifact is uploaded and then removed
by cleanup. -/
theorem C6_upload_witness :
    upload_build "bzImage" ⟨none, [], 0, []⟩ =
        ⟨none, [], 0, ["Could not find bzImage to upload."]⟩ ∧
    (bm_cleanup (upload_build "bzImage" ⟨some "img", [], 0, []⟩)).kernelBuild =
        none :=
  ⟨(C6_upload "bzImage" ⟨none, [], 0, []⟩).1 rfl,
    ((C6_upload "bzImage" ⟨some "img", [], 0, []⟩).2 "img" rfl).2⟩

/-- C7 (counterexample): the claim names the login URL
`https://<host-ip>/login`, but the code concatenates
`'https://' + ip + '//login'`: for host ip `10.0.0.2` the trace contains
a POST to `https://10.0.0.2//login` (double slash) and no POST to
`https://10.0.0.2/login`. -/
theorem C7_counterexample :
    LEv.post "https://10.0.0.2//login" "pw" true ∈
        bldsrv_run_trace 0 "10.0.0.2" "pw" "cmd" ∧
    LEv.post "https://10.0.0.2/login" "pw" true ∉
        bldsrv_run_trace 0 "10.0.0.2" "pw" "cmd" := by decide

/-- C7 (amended): if the provisioning command exits non-zero, the worker
only logs an error and exits, with no sleep, no address query and no
HTTP request; otherwise it sleeps exactly 120 one-second intervals with
no early-exit readiness check, queries the host address, and performs
exactly two sequential POST calls in one session, first to
`https://<host-ip>//login` with the credential payload and then to
`https://<host-ip>//gce-xfstests` with the serialized build request
(note the double slash in both URLs), both with a JSON content-type
header; the status logging after the second POST then raises a
`TypeError`. -/
theorem C7_amended (rc : Int) (ip pwd cmdJson : String) :
    (rc ≠ 0 → bldsrv_run_trace rc ip pwd cmdJson =
        [LEv.callLaunchBldsrv, LEv.logLaunchFailure, LEv.exitProc]) ∧
    (rc = 0 → bldsrv_run_trace rc ip pwd cmdJson =
        [LEv.callLaunchBldsrv] ++ List.replicate 120 LEv.sleepOneSec ++
          [LEv.getBldsrvIpCall,
            LEv.post ("https://" ++ ip ++ "//login") pwd true,
            LEv.post ("https://" ++ ip ++ "//gce-xfstests") cmdJson true,
            LEv.raiseTypeError]) := by
  constructor
  · intro h
    simp [bldsrv_run_trace, h]
  · intro h
    subst h
    simp [bldsrv_run_trace]

/-- C7 (witness): with a failing provisioning command (exit code 3) the
trace is exactly the provisioning call, the error log and the exit. -/
theorem C7_amended_witness :
    bldsrv_run_trace 3 "10.0.0.2" "pw" "cmd" =
      [LEv.callLaunchBldsrv, LEv.logLaunchFailure, LEv.exitProc] :=
  (C7_amended 3 "10.0.0.2" "pw" "cmd").1 (by decide)

/-- C8: every build identifier is the 14-character `YYYYMMDDHHMMSS`
rendering of the wall-clock time at generation; for two valid timestamps
at least one second apart (the earlier one has the strictly smaller
timestamp key), the later identifier is strictly greater both lexically
(string order) and numerically (decimal reading); and two identifiers
generated within the same wall-clock second (equal timestamps) are
equal. -/
theorem C8_build_id (t₁ t₂ : PyDateTime) (h₁ : t₁.Valid) (h₂ : t₂.Valid) :
    (get_datetime_build_id t₁).length = 14 ∧
    (t₁.key < t₂.key →
      get_datetime_build_id t₁ < get_datetime_build_id t₂ ∧
      strToNat (get_datetime_build_id t₁) <
        strToNat (get_datetime_build_id t₂)) ∧
    (t₁ = t₂ → get_datetime_build_id t₁ = get_datetime_build_id t₂) := by
  refine ⟨build_id_length t₁, fun hk => ⟨build_id_lt t₁ t₂ h₁ h₂ hk, ?_⟩,
    fun h => by rw [h]⟩
  rw [strToNat_build_id t₁ h₁, strToNat_build_id t₂ h₂]
  exact hk

/-- C8 (witness): for the concrete timestamps 2026-10-12 09:30:00 and
2026-10-12 09:30:01 the later identifier is lexically and numerically
greater. -/
theorem C8_build_id_witness :
    get_datetime_build_id ⟨2026, 10, 12, 9, 30, 0⟩ <
        get_datetime_build_id ⟨2026, 10, 12, 9, 30, 1⟩ ∧
    strToNat (get_datetime_build_id ⟨2026, 10, 12, 9, 30, 0⟩) <
        strToNat (get_datetime_build_id ⟨2026, 10, 12, 9, 30, 1⟩) :=
  (C8_build_id ⟨2026, 10, 12, 9, 30, 0⟩ ⟨2026, 10, 12, 9, 30, 1⟩
    (by decide) (by decide)).2.1 (by decide)

/-- C9: constructing a BuildManager always raises before `run()` can be
invoked: when `opts` lacks the `git_repo` key the use of the unset
`self.repository` attribute raises an `AttributeError`; otherwise the
access to `BLDSRV.repo_cache_path` raises an `AttributeError`, since the
`BLDSRV` class defines neither `repo_cache_path` nor `image_path` nor
`image_name`; and the `Kbuild` call site passes five positional
arguments against a four-parameter signature, which would raise a
`TypeError` if it were ever reached.  Hence `buildmanager_init` returns
an error for every `opts`. -/
theorem C9_init_always_raises (opts : Option (List (String × String))) :
    ((opts.bind fun o => o.lookup "git_repo") = none →
        buildmanager_init opts =
          Except.error (PyErr.attributeError "repository")) ∧
    (∀ r, (opts.bind fun o => o.lookup "git_repo") = some r →
        buildmanager_init opts =
          Except.error (PyErr.attributeError "repo_cache_path")) ∧
    (∃ e, buildmanager_init opts = Except.error e) ∧
    bldsrv_has_attr "repo_cache_path" = false ∧
    bldsrv_has_attr "image_path" = false ∧
    bldsrv_has_attr "image_name" = false ∧
    kbuild_init_call_argc = 5 ∧ kbuild_init_param_count = 4 ∧
    py_call_arity kbuild_init_param_count kbuild_init_call_argc =
      Except.error (PyErr.typeError "arity mismatch") := by
  have hnone : (opts.bind fun o => o.lookup "git_repo") = none →
      buildmanager_init opts =
        Except.error (PyErr.attributeError "repository") := by
    intro h
    simp [buildmanager_init, h]
  have hsome : ∀ r, (opts.bind fun o => o.lookup "git_repo") = some r →
      buildmanager_init opts =
        Except.error (PyErr.attributeError "repo_cache_path") := by
    intro r h
    simp only [buildmanager_init, h]
    rfl
  refine ⟨hnone, hsome, ?_, rfl, rfl, rfl, rfl, rfl, rfl⟩
  rcases h : opts.bind fun o => o.lookup "git_repo" with _ | r
  · exact ⟨_, hnone h⟩
  · exact ⟨_, hsome r h⟩

/-- C9 (witness): with both keys present the constructor still raises,
at the access to the missing `BLDSRV.repo_cache_path` attribute. -/
theorem C9_init_always_raises_witness :
    buildmanager_init (some [("git_repo", "git://repo"), ("commit_id", "abc")]) =
      Except.error (PyErr.attributeError "repo_cache_path") :=
  (C9_init_always_raises
    (some [("git_repo", "git://repo"), ("commit_id", "abc")])).2.1
    "git://repo" (by decide)

/-- C10: for every HTTP response whose body is a string, the send
operation raises a `TypeError` (indexing the string body with the string
key `status`) before reaching its return statement, so the coordinator
branch that logs a send failure when the result equals the bare string
`false` is unreachable in every run trace; and even the extraction
expression itself, on a body containing `,"status":"false"}`, yields the
quoted token `"false"`, which differs from the bare string `false`. -/
theorem C10_unreachable (body : String) :
    send_to_bldsrv body =
        Except.error (PyErr.typeError "string indices must be integers") ∧
    (∀ (rc : Int) (ip pwd cmdJson : String),
        LEv.logSendFailure ∉ bldsrv_run_trace rc ip pwd cmdJson) ∧
    extract_status ",\"status\":\"false\"\x7d" = some "\"false\"" ∧
    ("\"false\"" : String) ≠ "false" := by
  refine ⟨rfl, ?_, by decide, by decide⟩
  intro rc ip pwd cmdJson
  by_cases h : rc = 0
  · subst h
    simp [bldsrv_run_trace, List.mem_replicate]
  · simp [bldsrv_run_trace, h]

/-- C10 (witness): on the concrete response body `{"status":"ok"}` the
send operation returns the `TypeError`. -/
theorem C10_unreachable_witness :
    send_to_bldsrv "\x7b\"status\":\"ok\"\x7d" =
      Except.error (PyErr.typeError "string indices must be integers") :=
  (C10_unreachable "\x7b\"status\":\"ok\"\x7d").1
